import Mathlib

/-!
Verification development for the client-side data layer of the business
dashboard: the Store/reducer, API gateway helper, connectivity gating and
mutation actions of `src/react-frontend/src/context/AppContext.js`, the
stock-status function of `src/react-frontend/src/pages/Inventory.js`, and
the persistence adapter configured in `src/frontend/src/store/store.ts`.

The embedding is shallow: the React reducer becomes a pure transition
function on an explicit `AppState`, asynchronous gateway calls become a
parameter of type `ApiResult` describing the network outcome, and toast
notifications become an explicit list of `Notice` values returned to the
caller. Each action creator of the source becomes one Lean function that
threads the state through the exact sequence of dispatches the source
performs.
-/

namespace Dashboard0

/-- Outcome of one `fetch` performed by the `apiCall` helper.
`noBaseUrl` is the branch where `currentApiBaseUrl` is null (production
host, no configured endpoint): `apiCall` logs and returns null without
dispatching. `failure` is the catch branch (transport error or non-2xx
response): `apiCall` dispatches `SET_API_CONNECTION false` and returns
null. `success` carries the decoded JSON payload and dispatches
`SET_API_CONNECTION true`. -/
inductive ApiResult (α : Type) where
  | noBaseUrl : ApiResult α
  | failure : ApiResult α
  | success (payload : α) : ApiResult α
deriving DecidableEq

/-- The `user` object of the initial state. -/
structure User where
  name : String
  business : String
  role : String
  avatar : Option String
deriving DecidableEq

/-- The `business` object of the state. -/
structure Business where
  name : String
  type : String
  currency : String
  language : String
  gstEnabled : Bool
deriving DecidableEq

/-- One entry of `dashboard.salesData`. -/
structure SalesPoint where
  month : String
  sales : Int
deriving DecidableEq

/-- One entry of `dashboard.recentTransactions`. -/
structure Transaction where
  id : Nat
  customer : String
  amount : Int
  status : String
  date : String
deriving DecidableEq

/-- The `dashboard` slice of the state. -/
structure Dashboard where
  totalSales : Int
  totalCustomers : Int
  totalProducts : Int
  monthlyRevenue : Int
  salesData : List SalesPoint
  recentTransactions : List Transaction
deriving DecidableEq

/-- An inventory item as stored in the `inventory` collection. -/
structure InventoryItem where
  id : Nat
  name : String
  stock : Int
  price : Int
  category : String
deriving DecidableEq

/-- A customer as stored in the `customers` collection. -/
structure Customer where
  id : Nat
  name : String
  phone : String
  email : String
  totalOrders : Int
deriving DecidableEq

/-- A JSON payload merged over the `dashboard` slice by `UPDATE_DASHBOARD`
(`{ ...state.dashboard, ...action.payload }`): each field is optional and,
when present, overrides the corresponding prior field. -/
structure DashboardPatch where
  totalSales : Option Int := none
  totalCustomers : Option Int := none
  totalProducts : Option Int := none
  monthlyRevenue : Option Int := none
  salesData : Option (List SalesPoint) := none
  recentTransactions : Option (List Transaction) := none
deriving DecidableEq

/-- A JSON payload merged over one inventory item by
`UPDATE_INVENTORY_ITEM` (`{ ...item, ...action.payload }`); the payload
always carries the `id` used to locate the item. -/
structure InventoryItemPatch where
  id : Nat
  name : Option String := none
  stock : Option Int := none
  price : Option Int := none
  category : Option String := none
deriving DecidableEq

/-- A JSON payload merged over one customer by `UPDATE_CUSTOMER`. -/
structure CustomerPatch where
  id : Nat
  name : Option String := none
  phone : Option String := none
  email : Option String := none
  totalOrders : Option Int := none
deriving DecidableEq

/-- A JSON payload merged over the `business` slice by
`UPDATE_BUSINESS_PROFILE`. -/
structure BusinessPatch where
  name : Option String := none
  type : Option String := none
  currency : Option String := none
  language : Option String := none
  gstEnabled : Option Bool := none
deriving DecidableEq

/-- Spread-merge of a dashboard payload over the prior dashboard value:
fields present in the payload replace the prior value, absent fields
retain it. -/
def Dashboard.merge (d : Dashboard) (p : DashboardPatch) : Dashboard where
  totalSales := p.totalSales.getD d.totalSales
  totalCustomers := p.totalCustomers.getD d.totalCustomers
  totalProducts := p.totalProducts.getD d.totalProducts
  monthlyRevenue := p.monthlyRevenue.getD d.monthlyRevenue
  salesData := p.salesData.getD d.salesData
  recentTransactions := p.recentTransactions.getD d.recentTransactions

/-- Spread-merge of an item payload over a stored inventory item. -/
def InventoryItem.merge (it : InventoryItem) (p : InventoryItemPatch) : InventoryItem where
  id := p.id
  name := p.name.getD it.name
  stock := p.stock.getD it.stock
  price := p.price.getD it.price
  category := p.category.getD it.category

/-- Spread-merge of a customer payload over a stored customer. -/
def Customer.merge (c : Customer) (p : CustomerPatch) : Customer where
  id := p.id
  name := p.name.getD c.name
  phone := p.phone.getD c.phone
  email := p.email.getD c.email
  totalOrders := p.totalOrders.getD c.totalOrders

/-- Spread-merge of a profile payload over the `business` slice. -/
def Business.merge (b : Business) (p : BusinessPatch) : Business where
  name := p.name.getD b.name
  type := p.type.getD b.type
  currency := p.currency.getD b.currency
  language := p.language.getD b.language
  gstEnabled := p.gstEnabled.getD b.gstEnabled

/-- The Store state handled by `appReducer`. The source also keeps
`apiBaseUrl`, but the reducer never reads it and `apiCall` recomputes the
base URL from the window location on every call; that environment input is
modelled by `ApiResult.noBaseUrl` instead. -/
structure AppState where
  user : User
  business : Business
  dashboard : Dashboard
  inventory : List InventoryItem
  customers : List Customer
  loading : Bool
  error : Option String
  apiConnected : Bool
deriving DecidableEq

/-- The action types dispatched into `appReducer`, payloads included. -/
inductive Action where
  | setLoading (b : Bool)
  | setError (e : Option String)
  | setApiConnection (b : Bool)
  | updateDashboard (p : DashboardPatch)
  | updateInventory (items : List InventoryItem)
  | addInventoryItem (item : InventoryItem)
  | updateInventoryItem (p : InventoryItemPatch)
  | deleteInventoryItem (id : Nat)
  | updateCustomers (cs : List Customer)
  | addCustomer (c : Customer)
  | updateCustomer (p : CustomerPatch)
  | deleteCustomer (id : Nat)
  | updateBusinessProfile (p : BusinessPatch)
deriving DecidableEq

/-- The reducer of `AppContext.js` (lines 72-132), case by case. -/
def appReducer (state : AppState) (action : Action) : AppState :=
  match action with
  | .setLoading b => { state with loading := b }
  | .setError e => { state with error := e, loading := false }
  | .setApiConnection b => { state with apiConnected := b }
  | .updateDashboard p => { state with dashboard := state.dashboard.merge p }
  | .updateInventory items => { state with inventory := items }
  | .addInventoryItem item => { state with inventory := state.inventory ++ [item] }
  | .updateInventoryItem p =>
      { state with
        inventory := state.inventory.map fun item =>
          if item.id = p.id then item.merge p else item }
  | .deleteInventoryItem id =>
      { state with inventory := state.inventory.filter fun item => item.id != id }
  | .updateCustomers cs => { state with customers := cs }
  | .addCustomer c => { state with customers := state.customers ++ [c] }
  | .updateCustomer p =>
      { state with
        customers := state.customers.map fun customer =>
          if customer.id = p.id then customer.merge p else customer }
  | .deleteCustomer id =>
      { state with customers := state.customers.filter fun customer => customer.id != id }
  | .updateBusinessProfile p => { state with business := state.business.merge p }

/-- The `initialState` literal of `AppContext.js` (lines 5-52). -/
def initialState : AppState where
  user :=
    { name := "Rajesh Kumar", business := "Kumar Electronics", role := "Owner", avatar := none }
  business :=
    { name := "Kumar Electronics", type := "retail", currency := "INR",
      language := "hi", gstEnabled := true }
  dashboard :=
    { totalSales := 150000, totalCustomers := 1250, totalProducts := 450,
      monthlyRevenue := 2500000,
      salesData :=
        [ { month := "Jan", sales := 180000 }, { month := "Feb", sales := 220000 },
          { month := "Mar", sales := 190000 }, { month := "Apr", sales := 250000 },
          { month := "May", sales := 280000 }, { month := "Jun", sales := 150000 } ],
      recentTransactions :=
        [ { id := 1, customer := "Priya Sharma", amount := 15500,
            status := "completed", date := "2024-01-15" },
          { id := 2, customer := "Amit Patel", amount := 8900,
            status := "pending", date := "2024-01-14" },
          { id := 3, customer := "Sunita Devi", amount := 12000,
            status := "completed", date := "2024-01-14" } ] }
  inventory :=
    [ { id := 1, name := "iPhone 15 Pro", stock := 25, price := 129900,
        category := "Electronics" },
      { id := 2, name := "Samsung Galaxy S24", stock := 30, price := 89900,
        category := "Electronics" },
      { id := 3, name := "MacBook Air M3", stock := 10, price := 114900,
        category := "Computers" } ]
  customers :=
    [ { id := 1, name := "Priya Sharma", phone := "+91 98765 43210",
        email := "priya@email.com", totalOrders := 15 },
      { id := 2, name := "Amit Patel", phone := "+91 87654 32109",
        email := "amit@email.com", totalOrders := 8 },
      { id := 3, name := "Sunita Devi", phone := "+91 76543 21098",
        email := "sunita@email.com", totalOrders := 12 } ]
  loading := false
  error := none
  apiConnected := false

/-- A toast shown to the user by an action creator. -/
inductive Notice where
  | error (msg : String)
  | success (msg : String)
deriving DecidableEq

/-- The `apiCall` helper (lines 142-173): given the network outcome it
updates the connectivity flag (only on an actually issued call) and hands
the decoded payload, or `none` for the fallback path, back to the caller.
It never throws. -/
def apiCall {α : Type} (state : AppState) (r : ApiResult α) : AppState × Option α :=
  match r with
  | .noBaseUrl => (state, none)
  | .failure => (appReducer state (.setApiConnection false), none)
  | .success payload => (appReducer state (.setApiConnection true), some payload)

/-- The `setApiConnection` action creator (line 186): a direct dispatch of
`SET_API_CONNECTION` exposed to every consumer of the context. -/
def setApiConnection (state : AppState) (connected : Bool) : AppState :=
  appReducer state (.setApiConnection connected)

/-- Synchronous prefix of `fetchDashboardData`: `setLoading true` runs
before the `await` suspends. -/
def fetchDashboardDataIssue (state : AppState) : AppState :=
  appReducer state (.setLoading true)

/-- Continuation of `fetchDashboardData` once the gateway call resolves:
dispatch `UPDATE_DASHBOARD` when a payload arrived, otherwise keep the
fallback data, then `setLoading false`. -/
def fetchDashboardDataResolve (state : AppState) (r : ApiResult DashboardPatch) : AppState :=
  let (st2, data) := apiCall state r
  let st3 := match data with
    | some d => appReducer st2 (.updateDashboard d)
    | none => st2
  appReducer st3 (.setLoading false)

/-- The `fetchDashboardData` action creator (lines 189-206) run to
completion with network outcome `r`; it emits no toast. -/
def fetchDashboardData (state : AppState) (r : ApiResult DashboardPatch) :
    AppState × List Notice :=
  (fetchDashboardDataResolve (fetchDashboardDataIssue state) r, [])

/-- Synchronous prefix of `fetchInventory`. -/
def fetchInventoryIssue (state : AppState) : AppState :=
  appReducer state (.setLoading true)

/-- Continuation of `fetchInventory` once the gateway call resolves. -/
def fetchInventoryResolve (state : AppState) (r : ApiResult (List InventoryItem)) : AppState :=
  let (st2, data) := apiCall state r
  let st3 := match data with
    | some d => appReducer st2 (.updateInventory d)
    | none => st2
  appReducer st3 (.setLoading false)

/-- The `fetchInventory` action creator (lines 209-224) run to completion
with network outcome `r`; it emits no toast. -/
def fetchInventory (state : AppState) (r : ApiResult (List InventoryItem)) :
    AppState × List Notice :=
  (fetchInventoryResolve (fetchInventoryIssue state) r, [])

/-- Synchronous prefix of `fetchCustomers`. -/
def fetchCustomersIssue (state : AppState) : AppState :=
  appReducer state (.setLoading true)

/-- Continuation of `fetchCustomers` once the gateway call resolves. -/
def fetchCustomersResolve (state : AppState) (r : ApiResult (List Customer)) : AppState :=
  let (st2, data) := apiCall state r
  let st3 := match data with
    | some d => appReducer st2 (.updateCustomers d)
    | none => st2
  appReducer st3 (.setLoading false)

/-- The `fetchCustomers` action creator (lines 284-299) run to completion
with network outcome `r`; it emits no toast. -/
def fetchCustomers (state : AppState) (r : ApiResult (List Customer)) :
    AppState × List Notice :=
  (fetchCustomersResolve (fetchCustomersIssue state) r, [])

/-- The toast shown when a write is attempted while `apiConnected` is
false. -/
def demoModeNotice : Notice := .error "Feature not available in demo mode"

/-- The `addInventoryItem` action creator (lines 226-245). `item` is the
body POSTed to the server; `r` is the gateway outcome, whose payload is
the authoritative item returned by the server. Dispatches
`ADD_INVENTORY_ITEM` only when a payload arrived. -/
def addInventoryItem (state : AppState) (_item : InventoryItem)
    (r : ApiResult InventoryItem) : AppState × List Notice :=
  if !state.apiConnected then
    (state, [demoModeNotice])
  else
    let (st2, newItem) := apiCall state r
    match newItem with
    | some it =>
        (appReducer st2 (.addInventoryItem it), [.success "Inventory item added successfully"])
    | none => (st2, [])

/-- The `updateInventoryItem` action creator (lines 247-266). `id` and
`updates` form the PUT request; the dispatched payload is the server
response. -/
def updateInventoryItem (state : AppState) (_id : Nat) (_updates : InventoryItemPatch)
    (r : ApiResult InventoryItemPatch) : AppState × List Notice :=
  if !state.apiConnected then
    (state, [demoModeNotice])
  else
    let (st2, updatedItem) := apiCall state r
    match updatedItem with
    | some p =>
        (appReducer st2 (.updateInventoryItem p),
         [.success "Inventory item updated successfully"])
    | none => (st2, [])

/-- The `deleteInventoryItem` action creator (lines 268-281). The gateway
response value is ignored: `DELETE_INVENTORY_ITEM` is dispatched and the
success toast shown regardless of the call outcome. -/
def deleteInventoryItem (state : AppState) (id : Nat) (r : ApiResult Unit) :
    AppState × List Notice :=
  if !state.apiConnected then
    (state, [demoModeNotice])
  else
    let (st2, _) := apiCall state r
    (appReducer st2 (.deleteInventoryItem id),
     [.success "Inventory item deleted successfully"])

/-- The `addCustomer` action creator (lines 301-320). -/
def addCustomer (state : AppState) (_customer : Customer) (r : ApiResult Customer) :
    AppState × List Notice :=
  if !state.apiConnected then
    (state, [demoModeNotice])
  else
    let (st2, newCustomer) := apiCall state r
    match newCustomer with
    | some c => (appReducer st2 (.addCustomer c), [.success "Customer added successfully"])
    | none => (st2, [])

/-- The `updateCustomer` action creator (lines 322-341). -/
def updateCustomer (state : AppState) (_id : Nat) (_updates : CustomerPatch)
    (r : ApiResult CustomerPatch) : AppState × List Notice :=
  if !state.apiConnected then
    (state, [demoModeNotice])
  else
    let (st2, updatedCustomer) := apiCall state r
    match updatedCustomer with
    | some p => (appReducer st2 (.updateCustomer p), [.success "Customer updated successfully"])
    | none => (st2, [])

/-- The `deleteCustomer` action creator (lines 343-356). As for inventory,
the deletion is dispatched regardless of the gateway outcome. -/
def deleteCustomer (state : AppState) (id : Nat) (r : ApiResult Unit) :
    AppState × List Notice :=
  if !state.apiConnected then
    (state, [demoModeNotice])
  else
    let (st2, _) := apiCall state r
    (appReducer st2 (.deleteCustomer id), [.success "Customer deleted successfully"])

/-- The `updateBusinessProfile` action creator (lines 359-378). -/
def updateBusinessProfile (state : AppState) (_updates : BusinessPatch)
    (r : ApiResult BusinessPatch) : AppState × List Notice :=
  if !state.apiConnected then
    (state, [demoModeNotice])
  else
    let (st2, updatedProfile) := apiCall state r
    match updatedProfile with
    | some p =>
        (appReducer st2 (.updateBusinessProfile p),
         [.success "Business profile updated successfully"])
    | none => (st2, [])

/-- Two overlapping inventory fetches: A is issued, then B is issued, then
the response of B arrives and is committed, then the late response of A
arrives and is committed. The source has no request token, so both
resolutions run in full. -/
def overlappedFetchInventory (state : AppState)
    (rA rB : ApiResult (List InventoryItem)) : AppState :=
  fetchInventoryResolve
    (fetchInventoryResolve (fetchInventoryIssue (fetchInventoryIssue state)) rB) rA

/-- The `getStockStatus` helper of `src/react-frontend/src/pages/Inventory.js`
(lines 53-57). -/
def getStockStatus (stock minStock : Int) : String :=
  if stock ≤ minStock then "low"
  else if stock ≤ minStock * 2 then "medium"
  else "high"



namespace Persist

/-- A JSON-like serialized value, the shape stored by the persistence
layer. -/
inductive JValue where
  | null : JValue
  | bool (b : Bool) : JValue
  | str (s : String) : JValue
  | obj (fields : List (String × JValue)) : JValue

/-- Field lookup in a serialized object; `none` on any non-object or
missing key. -/
def JValue.getField (v : JValue) (key : String) : Option JValue :=
  match v with
  | .obj fields => fields.lookup key
  | _ => none

/-- Modelled from the spec: the Session slice persisted under the
`session` key (spec section 3). The serialize/validate/rehydrate logic of
the Persistence Adapter lives in the redux-persist library, outside the
sources; only its configuration (`persistConfig` in
`src/frontend/src/store/store.ts`, whitelisting the auth and app slices)
is in the repository, so the adapter is modelled from the words of the
spec sections 4.5 and 6. -/
structure Session where
  token : Option String
  userId : String
  displayName : String
  businessName : String
deriving DecidableEq

/-- Modelled from the spec: the AppMeta slice persisted under the
`appMeta` key (spec section 3). -/
structure AppMeta where
  initialized : Bool
  language : String
  theme : Bool
  locale : String
  timezone : String
deriving DecidableEq

/-- Modelled from the spec: serialization of a Session value (an absent
token is stored as null, mirroring a JSON null). -/
def persistSession (s : Session) : JValue :=
  .obj
    [ ("token", match s.token with | some t => .str t | none => .null),
      ("userId", .str s.userId),
      ("displayName", .str s.displayName),
      ("businessName", .str s.businessName) ]

/-- Modelled from the spec: structural validation of a persisted Session
blob; any missing field or type mismatch fails. -/
def decodeSession (v : JValue) : Option Session :=
  match v.getField "token", v.getField "userId",
        v.getField "displayName", v.getField "businessName" with
  | some tok, some (.str u), some (.str d), some (.str b) =>
      match tok with
      | .null => some { token := none, userId := u, displayName := d, businessName := b }
      | .str t => some { token := some t, userId := u, displayName := d, businessName := b }
      | _ => none
  | _, _, _, _ => none

/-- Modelled from the spec: the default Session used when rehydration
finds nothing valid (unauthenticated). -/
def defaultSession : Session :=
  { token := none, userId := "", displayName := "", businessName := "" }

/-- Modelled from the spec: rehydration of the `session` key — absent,
corrupt or schema-mismatched blobs fall back to the default and never
fail. -/
def rehydrateSession (blob : Option JValue) : Session :=
  (blob.bind decodeSession).getD defaultSession

/-- Modelled from the spec: serialization of an AppMeta value (the theme
enum light/dark is stored as the strings "light"/"dark"; `theme = true`
means dark). -/
def persistAppMeta (m : AppMeta) : JValue :=
  .obj
    [ ("initialized", .bool m.initialized),
      ("language", .str m.language),
      ("theme", .str (if m.theme then "dark" else "light")),
      ("locale", .str m.locale),
      ("timezone", .str m.timezone) ]

/-- Modelled from the spec: structural validation of a persisted AppMeta
blob. -/
def decodeAppMeta (v : JValue) : Option AppMeta :=
  match v.getField "initialized", v.getField "language", v.getField "theme",
        v.getField "locale", v.getField "timezone" with
  | some (.bool i), some (.str lang), some (.str th), some (.str loc), some (.str tz) =>
      if th = "dark" then
        some { initialized := i, language := lang, theme := true, locale := loc, timezone := tz }
      else if th = "light" then
        some { initialized := i, language := lang, theme := false, locale := loc, timezone := tz }
      else none
  | _, _, _, _, _ => none

/-- Modelled from the spec: the default AppMeta used when rehydration
finds nothing valid. -/
def defaultAppMeta : AppMeta :=
  { initialized := false, language := "hindi", theme := false,
    locale := "en-IN", timezone := "Asia/Kolkata" }

/-- Modelled from the spec: rehydration of the `appMeta` key. -/
def rehydrateAppMeta (blob : Option JValue) : AppMeta :=
  (blob.bind decodeAppMeta).getD defaultAppMeta

end Persist


end Dashboard0

namespace Dashboard0

/-- A list maps to itself under a function that fixes each of its
members. -/
theorem list_map_eq_self_of_mem {α : Type} (l : List α) (f : α → α)
    (h : ∀ a ∈ l, f a = a) : l.map f = l := by
  induction l with
  | nil => rfl
  | cons x xs ih =>
      simp only [List.map_cons]
      rw [h x (by simp), ih fun a ha => h a (by simp [ha])]

/-- A list is unchanged by a filter that holds on each of its members. -/
theorem list_filter_eq_self_of_mem {α : Type} (l : List α) (f : α → Bool)
    (h : ∀ a ∈ l, f a = true) : l.filter f = l := by
  induction l with
  | nil => rfl
  | cons x xs ih =>
      rw [List.filter_cons, if_pos (h x (by simp)), ih fun a ha => h a (by simp [ha])]

/-- C1: every write operation (add, update and delete of inventory items
and customers, and the business profile update) dispatched while the
connectivity flag is false returns the state unchanged in every slice and
yields exactly the feature-unavailable-offline notice; no optimistic
change is applied regardless of the network outcome. -/
theorem c1_offline_writes_reject (st : AppState) (h : st.apiConnected = false)
    (item : InventoryItem) (ip : InventoryItemPatch) (c : Customer) (cp : CustomerPatch)
    (bp : BusinessPatch) (i j : Nat)
    (r1 : ApiResult InventoryItem) (r2 : ApiResult InventoryItemPatch) (r3 : ApiResult Unit)
    (r4 : ApiResult Customer) (r5 : ApiResult CustomerPatch) (r6 : ApiResult Unit)
    (r7 : ApiResult BusinessPatch) :
    addInventoryItem st item r1 = (st, [demoModeNotice]) ∧
    updateInventoryItem st i ip r2 = (st, [demoModeNotice]) ∧
    deleteInventoryItem st i r3 = (st, [demoModeNotice]) ∧
    addCustomer st c r4 = (st, [demoModeNotice]) ∧
    updateCustomer st j cp r5 = (st, [demoModeNotice]) ∧
    deleteCustomer st j r6 = (st, [demoModeNotice]) ∧
    updateBusinessProfile st bp r7 = (st, [demoModeNotice]) := by
  simp [addInventoryItem, updateInventoryItem, deleteInventoryItem, addCustomer,
        updateCustomer, deleteCustomer, updateBusinessProfile, h]

/-- C1 witness: in the initial state the connectivity flag is false, and
an offline add of a concrete inventory item leaves the state unchanged
and yields the offline notice. -/
theorem c1_offline_writes_reject_witness :
    initialState.apiConnected = false ∧
    addInventoryItem initialState ⟨4, "X", 1, 1, "c"⟩ ApiResult.failure
      = (initialState, [demoModeNotice]) :=
  ⟨rfl,
    (c1_offline_writes_reject initialState rfl ⟨4, "X", 1, 1, "c"⟩ ⟨4, none, none, none, none⟩
      ⟨4, "Y", "p", "e", 0⟩ ⟨4, none, none, none, none⟩
      ⟨none, none, none, none, none⟩ 4 4 ApiResult.failure ApiResult.failure
      ApiResult.failure ApiResult.failure ApiResult.failure ApiResult.failure
      ApiResult.failure).1⟩

/-- C2: for each entity kind (dashboard, inventory, customers), a fetch
whose gateway call fails leaves the Store slice for that kind unchanged,
sets the connectivity flag to false, emits no toast, and leaves the error
field unchanged. -/
theorem c2_fetch_unavailable_frame (st : AppState) :
    (fetchDashboardData st ApiResult.failure).1.dashboard = st.dashboard ∧
    (fetchDashboardData st ApiResult.failure).1.apiConnected = false ∧
    (fetchDashboardData st ApiResult.failure).1.error = st.error ∧
    (fetchDashboardData st ApiResult.failure).2 = [] ∧
    (fetchInventory st ApiResult.failure).1.inventory = st.inventory ∧
    (fetchInventory st ApiResult.failure).1.apiConnected = false ∧
    (fetchInventory st ApiResult.failure).1.error = st.error ∧
    (fetchInventory st ApiResult.failure).2 = [] ∧
    (fetchCustomers st ApiResult.failure).1.customers = st.customers ∧
    (fetchCustomers st ApiResult.failure).1.apiConnected = false ∧
    (fetchCustomers st ApiResult.failure).1.error = st.error ∧
    (fetchCustomers st ApiResult.failure).2 = [] :=
  ⟨rfl, rfl, rfl, rfl, rfl, rfl, rfl, rfl, rfl, rfl, rfl, rfl⟩

/-- A concrete state whose connectivity flag is up, as after a
successful gateway call. -/
def connectedState : AppState := { initialState with apiConnected := true }

/-- C3 counterexample: with connectivity up and a failing gateway,
deleting inventory item 1 removes it from the Store anyway (the state is
not restored to its pre-mutation value) and a success toast is shown
instead of an error. -/
theorem c3_counterexample :
    connectedState.apiConnected = true ∧
    (deleteInventoryItem connectedState 1 ApiResult.failure).1.inventory
      ≠ connectedState.inventory ∧
    (deleteInventoryItem connectedState 1 ApiResult.failure).2
      = [Notice.success "Inventory item deleted successfully"] := by
  refine ⟨rfl, fun h => absurd (congrArg List.length h) (by decide), rfl⟩

/-- C3 amended: no optimistic change is ever applied, so there is no
rollback. For a write started while connectivity is up whose gateway call
fails, add and update operations leave every entity slice unchanged (only
the connectivity flag drops) and surface no error, while delete
operations commit the local deletion anyway and show a success toast. -/
theorem c3_online_write_failure (st : AppState) (h : st.apiConnected = true)
    (item : InventoryItem) (ip : InventoryItemPatch) (c : Customer) (cp : CustomerPatch)
    (bp : BusinessPatch) (i j : Nat) :
    addInventoryItem st item ApiResult.failure = ({ st with apiConnected := false }, []) ∧
    updateInventoryItem st i ip ApiResult.failure = ({ st with apiConnected := false }, []) ∧
    addCustomer st c ApiResult.failure = ({ st with apiConnected := false }, []) ∧
    updateCustomer st j cp ApiResult.failure = ({ st with apiConnected := false }, []) ∧
    updateBusinessProfile st bp ApiResult.failure = ({ st with apiConnected := false }, []) ∧
    deleteInventoryItem st i ApiResult.failure
      = ({ st with apiConnected := false,
                   inventory := st.inventory.filter fun it => it.id != i },
         [Notice.success "Inventory item deleted successfully"]) ∧
    deleteCustomer st j ApiResult.failure
      = ({ st with apiConnected := false,
                   customers := st.customers.filter fun cu => cu.id != j },
         [Notice.success "Customer deleted successfully"]) := by
  simp [addInventoryItem, updateInventoryItem, deleteInventoryItem, addCustomer,
        updateCustomer, deleteCustomer, updateBusinessProfile, apiCall, appReducer, h]

/-- C3 amended witness: in the concrete connected state, an add with a
failing gateway only drops the connectivity flag. -/
theorem c3_online_write_failure_witness :
    connectedState.apiConnected = true ∧
    addInventoryItem connectedState ⟨4, "X", 1, 1, "c"⟩ ApiResult.failure
      = ({ connectedState with apiConnected := false }, []) :=
  ⟨rfl,
    (c3_online_write_failure connectedState rfl ⟨4, "X", 1, 1, "c"⟩
      ⟨4, none, none, none, none⟩ ⟨4, "Y", "p", "e", 0⟩ ⟨4, none, none, none, none⟩
      ⟨none, none, none, none, none⟩ 4 4).1⟩

/-- C4 counterexample: a successful dashboard fetch does not fully replace
the dashboard slice — with the same gateway payload carrying only
`totalSales`, two different prior states yield two different resulting
dashboards, so the prior value is merged in, not replaced. -/
theorem c4_counterexample :
    (fetchDashboardData initialState
        (ApiResult.success { totalSales := some 1 })).1.dashboard.totalCustomers = 1250 ∧
    (fetchDashboardData
        { initialState with
          dashboard := { initialState.dashboard with totalCustomers := 7 } }
        (ApiResult.success { totalSales := some 1 })).1.dashboard.totalCustomers = 7 :=
  ⟨rfl, rfl⟩

/-- C4 amended: successful inventory and customer fetches fully replace
their Store slices and set connectivity to true; a successful dashboard
fetch also sets connectivity to true but merges the payload field by
field over the prior snapshot, each absent field retaining its prior
value. -/
theorem c4_fetch_success (st : AppState) (inv : List InventoryItem)
    (cs : List Customer) (p : DashboardPatch) :
    (fetchInventory st (ApiResult.success inv)).1.inventory = inv ∧
    (fetchInventory st (ApiResult.success inv)).1.apiConnected = true ∧
    (fetchCustomers st (ApiResult.success cs)).1.customers = cs ∧
    (fetchCustomers st (ApiResult.success cs)).1.apiConnected = true ∧
    (fetchDashboardData st (ApiResult.success p)).1.apiConnected = true ∧
    (fetchDashboardData st (ApiResult.success p)).1.dashboard.totalSales
      = p.totalSales.getD st.dashboard.totalSales ∧
    (fetchDashboardData st (ApiResult.success p)).1.dashboard.totalCustomers
      = p.totalCustomers.getD st.dashboard.totalCustomers ∧
    (fetchDashboardData st (ApiResult.success p)).1.dashboard.totalProducts
      = p.totalProducts.getD st.dashboard.totalProducts ∧
    (fetchDashboardData st (ApiResult.success p)).1.dashboard.monthlyRevenue
      = p.monthlyRevenue.getD st.dashboard.monthlyRevenue ∧
    (fetchDashboardData st (ApiResult.success p)).1.dashboard.salesData
      = p.salesData.getD st.dashboard.salesData ∧
    (fetchDashboardData st (ApiResult.success p)).1.dashboard.recentTransactions
      = p.recentTransactions.getD st.dashboard.recentTransactions :=
  ⟨rfl, rfl, rfl, rfl, rfl, rfl, rfl, rfl, rfl, rfl, rfl⟩

/-- C5 counterexample: two overlapped inventory fetches, A issued before
B, with the response of B arriving first; the Store ends with the payload
of A (the late response is committed), not the payload of B as the claim
requires, and the two payloads differ. -/
theorem c5_counterexample :
    (overlappedFetchInventory initialState
        (ApiResult.success [⟨7, "Late", 1, 1, "c"⟩])
        (ApiResult.success [⟨8, "Fresh", 2, 2, "d"⟩])).inventory
      = [⟨7, "Late", 1, 1, "c"⟩] ∧
    ([⟨7, "Late", 1, 1, "c"⟩] : List InventoryItem) ≠ [⟨8, "Fresh", 2, 2, "d"⟩] :=
  ⟨rfl, by decide⟩

/-- C5 amended: the source issues no request token and discards nothing —
every arriving response commits unconditionally, so after two overlapped
fetches for the same entity kind the Store reflects whichever response
arrived last: here the late response of the first-issued fetch A. -/
theorem c5_last_arrival_wins (st : AppState) (la lb : List InventoryItem) :
    (overlappedFetchInventory st (ApiResult.success la) (ApiResult.success lb)).inventory
      = la ∧
    (overlappedFetchInventory st (ApiResult.success la) (ApiResult.success lb)).apiConnected
      = true :=
  ⟨rfl, rfl⟩

/-- C6 counterexample: the connectivity flag is directly mutable outside
the gateway — the exposed `setApiConnection` action creator sets it to
true with no gateway call having occurred; moreover on the no-base-URL
path `apiCall` hands its caller the unavailable result (null) without
setting the flag to false. -/
theorem c6_counterexample :
    initialState.apiConnected = false ∧
    (setApiConnection initialState true).apiConnected = true ∧
    apiCall initialState (ApiResult.noBaseUrl : ApiResult Unit) = (initialState, none) :=
  ⟨rfl, rfl, rfl⟩

/-- C6 amended: after every actually issued gateway call `apiCall` sets
the connectivity flag — to true exactly on success and to false on
failure, leaving every other slice unchanged; but when no base URL is
configured the call is skipped and the flag is left untouched, and the
context also exposes a `setApiConnection` action through which any
consumer can set the flag directly. -/
theorem c6_connectivity_flag {α : Type} (st : AppState) (b : Bool) (payload : α) :
    (apiCall st (ApiResult.success payload)).1 = { st with apiConnected := true } ∧
    (apiCall st (ApiResult.failure : ApiResult α)).1 = { st with apiConnected := false } ∧
    apiCall st (ApiResult.noBaseUrl : ApiResult α) = (st, none) ∧
    (setApiConnection st b).apiConnected = b :=
  ⟨rfl, rfl, rfl, rfl⟩

/-- An inventory payload that violates two of the entity invariants of
the spec: its id duplicates an id already in the initial collection and
its price and stock are negative. -/
def badItem : InventoryItem :=
  { id := 1, name := "Dup", stock := -3, price := -5, category := "X" }

/-- C7 counterexample: dispatching `ADD_INVENTORY_ITEM` with a payload
whose id duplicates an existing id and whose price and stock are negative
is accepted verbatim — the Store changes (the item is appended) and no
validation failure occurs, where the claim requires the mutation to fail
and leave the Store unchanged. -/
theorem c7_counterexample :
    (initialState.inventory.map InventoryItem.id).contains badItem.id = true ∧
    badItem.price < 0 ∧
    badItem.stock < 0 ∧
    (appReducer initialState (Action.addInventoryItem badItem)).inventory
      = initialState.inventory ++ [badItem] ∧
    (appReducer initialState (Action.addInventoryItem badItem)).inventory
      ≠ initialState.inventory := by
  refine ⟨rfl, by decide, by decide, rfl,
    fun h => absurd (congrArg List.length h) (by decide)⟩

/-- C7 amended: the reducer performs no invariant validation at all —
every add payload, duplicate ids and negative amounts included, is
appended to its collection unconditionally; there is no validation-error
path. -/
theorem c7_no_validation (st : AppState) (it : InventoryItem) (c : Customer) :
    (appReducer st (Action.addInventoryItem it)).inventory.length
      = st.inventory.length + 1 ∧
    it ∈ (appReducer st (Action.addInventoryItem it)).inventory ∧
    (appReducer st (Action.addCustomer c)).customers.length
      = st.customers.length + 1 ∧
    c ∈ (appReducer st (Action.addCustomer c)).customers := by
  refine ⟨by simp [appReducer], by simp [appReducer],
    by simp [appReducer], by simp [appReducer]⟩

/-- C8 counterexample: the status function returns the strings low,
medium and high, not critical, low and in-stock — at stock 2 with
minStock 5 it returns low rather than critical, and at stock 8 with
minStock 5 it returns medium rather than in-stock. -/
theorem c8_counterexample :
    getStockStatus 2 5 = "low" ∧ getStockStatus 2 5 ≠ "critical" ∧
    getStockStatus 8 5 = "medium" ∧ getStockStatus 8 5 ≠ "in-stock" :=
  ⟨rfl, by decide, rfl, by decide⟩

/-- C8 amended: the status of an item is a pure function of stock and
minStock with values low (stock at most minStock, the boundary stock
equal to minStock included), medium (stock at most twice minStock) and
high (otherwise): stock 2 with minStock 5 gives low, stock 8 with
minStock 5 gives medium, and stock equal to minStock always gives low. -/
theorem c8_stock_status (n : Int) :
    getStockStatus 2 5 = "low" ∧ getStockStatus 8 5 = "medium" ∧
    getStockStatus 11 5 = "high" ∧ getStockStatus n n = "low" := by
  refine ⟨rfl, rfl, rfl, ?_⟩
  simp [getStockStatus]

/-- C9: persisting a Session or AppMeta value and rehydrating the stored
blob returns a value structurally equal to the one persisted, for every
valid value of either slice. -/
theorem c9_persist_rehydrate_roundtrip (s : Persist.Session) (m : Persist.AppMeta) :
    Persist.rehydrateSession (some (Persist.persistSession s)) = s ∧
    Persist.rehydrateAppMeta (some (Persist.persistAppMeta m)) = m := by
  constructor
  · obtain ⟨tok, u, d, b⟩ := s
    cases tok <;> rfl
  · obtain ⟨i, lang, th, loc, tz⟩ := m
    cases th <;> rfl

/-- C10: dispatching an item or customer update, or a delete, whose id is
absent from the targeted collection is a silent no-op — the resulting
state equals the prior state and no error is raised (the reducer is
total). -/
theorem c10_absent_id_noop (st : AppState) (p : InventoryItemPatch) (q : CustomerPatch)
    (i j : Nat)
    (hp : ∀ it ∈ st.inventory, it.id ≠ p.id)
    (hi : ∀ it ∈ st.inventory, it.id ≠ i)
    (hq : ∀ c ∈ st.customers, c.id ≠ q.id)
    (hj : ∀ c ∈ st.customers, c.id ≠ j) :
    appReducer st (Action.updateInventoryItem p) = st ∧
    appReducer st (Action.deleteInventoryItem i) = st ∧
    appReducer st (Action.updateCustomer q) = st ∧
    appReducer st (Action.deleteCustomer j) = st := by
  refine ⟨?_, ?_, ?_, ?_⟩
  · show ({ st with
      inventory := st.inventory.map fun item =>
        if item.id = p.id then item.merge p else item } : AppState) = st
    rw [list_map_eq_self_of_mem _ _ fun a ha => if_neg (hp a ha)]
  · show ({ st with
      inventory := st.inventory.filter fun item => item.id != i } : AppState) = st
    rw [list_filter_eq_self_of_mem _ _ fun a ha => by simpa using hi a ha]
  · show ({ st with
      customers := st.customers.map fun customer =>
        if customer.id = q.id then customer.merge q else customer } : AppState) = st
    rw [list_map_eq_self_of_mem _ _ fun a ha => if_neg (hq a ha)]
  · show ({ st with
      customers := st.customers.filter fun customer => customer.id != j } : AppState) = st
    rw [list_filter_eq_self_of_mem _ _ fun a ha => by simpa using hj a ha]

/-- C10 witness: updating and deleting with the absent id 99 leaves the
concrete initial state unchanged. -/
theorem c10_absent_id_noop_witness :
    (∀ it ∈ initialState.inventory, it.id ≠ 99) ∧
    appReducer initialState (Action.updateInventoryItem ⟨99, none, none, none, none⟩)
      = initialState :=
  ⟨by decide,
    (c10_absent_id_noop initialState ⟨99, none, none, none, none⟩
      ⟨99, none, none, none, none⟩ 99 99
      (by decide) (by decide) (by decide) (by decide)).1⟩

end Dashboard0
